import Mathlib

/-!
Shallow embedding of the DSPyUI backend (src/backend/app.py, models.py,
prompt_optimizer.py) and proofs about it.

External effects are modelled explicitly:
* calls into the third-party LLM framework (dspy) are oracle parameters of
  type `Except Unit Prediction` / `Except Unit Assessments`: `.ok` is the
  value the call returned, `.error` means the call raised an exception;
* Python floats are modelled as rationals (ℚ);
* the process environment is an association list.
-/

namespace DSPyUI

/-- Python whitespace characters, as recognised by `str.strip`, `str.split`
and `str.isspace` (ASCII subset: space, tab, newline, carriage return,
vertical tab, form feed). -/
def pyIsSpace (c : Char) : Bool :=
  c = ' ' || c = '\t' || c = '\n' || c = '\x0d' || c = '\x0b' || c = '\x0c'

/-- Python `str.strip()`: remove leading and trailing whitespace. -/
def pyStrip (s : String) : String :=
  ⟨((s.data.dropWhile pyIsSpace).reverse.dropWhile pyIsSpace).reverse⟩

/-- Split a character list at every character satisfying `p`, keeping empty
pieces (the list analogue of Python `str.split(sep)` for a 1-character
separator when `p` tests equality with it). -/
def splitPred (p : Char → Bool) : List Char → List (List Char)
  | [] => [[]]
  | c :: cs =>
    match splitPred p cs with
    | [] => [[]]
    | q :: qs => if p c then [] :: q :: qs else (c :: q) :: qs

/-- Python `s.split(sep)` for a single-character separator (the only form
the repository uses: `'.'` and `'\n'`): split at every occurrence, keeping
empty pieces. -/
def pySplitOnChar (sep : Char) (s : String) : List String :=
  (splitPred (fun c => c = sep) s.data).map (fun l => ⟨l⟩)

/-- Python `str.split()` with no argument: split on runs of whitespace,
discarding empty pieces. -/
def pySplitWs (s : String) : List String :=
  ((splitPred pyIsSpace s.data).map (fun l => (⟨l⟩ : String))).filter (fun t => t ≠ "")

/-- Python `str.lower()` (ASCII case folding, character by character). -/
def pyToLower (s : String) : String :=
  ⟨s.data.map Char.toLower⟩

/-- Python `s.startswith(pre)`. -/
def pyStartsWith (s pre : String) : Bool :=
  pre.data.isPrefixOf s.data

/-- Helper for `pyContains`: does `sub` occur as a contiguous sublist of `l`? -/
def containsAux (sub : List Char) : List Char → Bool
  | [] => sub.isEmpty
  | c :: cs => sub.isPrefixOf (c :: cs) || containsAux sub cs

/-- Python `sub in s` membership test on strings. -/
def pyContains (s sub : String) : Bool :=
  containsAux sub.data s.data

/-- Python `str.isspace()`: nonempty and all characters whitespace. -/
def pyIsSpaceStr (s : String) : Bool :=
  s ≠ "" && s.data.all pyIsSpace

/-- Python `round(q, 2)`: round to 2 decimal places, ties to even
(idealised over ℚ rather than binary floating point). -/
def pyRound2 (q : ℚ) : ℚ :=
  let r := q * 100
  let f : ℤ := ⌊r⌋
  let d : ℚ := r - f
  (if d < 1/2 then (f : ℚ)
   else if 1/2 < d then (f : ℚ) + 1
   else if f % 2 = 0 then (f : ℚ) else (f : ℚ) + 1) / 100

/-- Lookup in an association-list environment / dict (Python
`os.getenv` / `dict.get` without default returns `None` when absent). -/
def getenv (env : List (String × String)) (key : String) : Option String :=
  (env.find? (fun p => p.1 = key)).map (fun p => p.2)

/-- Quality metrics dictionary returned by `analyze_prompt_quality` /
`_heuristic_quality_analysis` (prompt_optimizer.py): it always has exactly
these four keys, so it is modelled as a record. -/
structure Metrics where
  clarity_score : ℚ
  specificity_score : ℚ
  structure_score : ℚ
  completeness_score : ℚ
deriving DecidableEq, Repr

/-- A `dspy.Prediction` as consumed by `optimize_prompt`: the two fields it
reads via `hasattr`, `none` meaning the attribute is absent. -/
structure Prediction where
  optimized_prompt : Option String
  improvements : Option String
deriving DecidableEq, Repr

/-- The result of the LM-based quality analysis in `analyze_prompt_quality`:
the four assessment attributes read via `getattr` with default
`"moderate"`, `none` meaning the attribute is absent. -/
structure Assessments where
  clarity_assessment : Option String
  specificity_assessment : Option String
  structure_assessment : Option String
  completeness_assessment : Option String
deriving DecidableEq, Repr

/-- One entry of the optional `examples` list (a Python `Dict[str, str]`
accessed only through `.get('input', 'N/A')` and `.get('output', 'N/A')`). -/
structure PyExample where
  input : Option String
  output : Option String
deriving DecidableEq, Repr

/-- The `dspy.LM` configuration built in `PromptOptimizer.__init__`. -/
structure LMConfig where
  model : String
  api_key : String
  temperature : ℚ
deriving DecidableEq, Repr

/-- The mutable fields of a `PromptOptimizer` instance, as set by
`__init__`.  `base_optimizer` is a `dspy.ChainOfThought` over a fixed
signature (no repository-level state beyond its existence), and
`compiled_optimizer` is `None` at construction and never reassigned. -/
structure OptimizerState where
  lm : LMConfig
  base_optimizer : Unit
  compiled_optimizer : Option Unit
deriving DecidableEq, Repr

/-- `PromptOptimizer.__init__` (prompt_optimizer.py lines 26-47).
`pfloat` models Python `float(·)` string parsing (`none` = `ValueError`);
`.error msg` models the constructor raising.  The external calls
`dspy.LM(...)`, `dspy.configure(...)` and `dspy.ChainOfThought(...)` are
modelled as non-raising constructions. -/
def promptOptimizer_init (env : List (String × String))
    (pfloat : String → Option ℚ) : Except String OptimizerState :=
  let api_key := getenv env "OPENAI_API_KEY"
  if api_key.getD "" = "" then
    .error "OPENAI_API_KEY not found in environment variables"
  else
    let model_name := (getenv env "OPENAI_MODEL").getD "gpt-4"
    match pfloat ((getenv env "DSPY_TEMPERATURE").getD "0.7") with
    | none => .error "could not convert string to float"
    | some temperature =>
      .ok { lm := { model := "openai/" ++ model_name,
                    api_key := api_key.getD "",
                    temperature := temperature },
            base_optimizer := (),
            compiled_optimizer := none }

/-- The examples-context string built at the top of `optimize_prompt`
(lines 67-74), for a nonempty examples list. -/
def build_examples_context (examples : List PyExample) : String :=
  "Consider these examples:\n" ++
    String.join ((examples.enum).map (fun p =>
      "Example " ++ toString (p.1 + 1) ++ ":\n" ++
      "  Input: " ++ (p.2.input).getD "N/A" ++ "\n" ++
      "  Output: " ++ (p.2.output).getD "N/A" ++ "\n"))

/-- `PromptOptimizer._optimize_with_examples` (lines 121-168).  The whole
`BootstrapFewShot` compile-and-run path is external work whose outcome is
the oracle `fewshot`; on its exception the `except` branch calls
`_optimize_without_examples`, whose underlying call outcome is the oracle
`base` (an exception there propagates to the caller). -/
def optimize_with_examples (fewshot base : Except Unit Prediction) :
    Except Unit Prediction :=
  match fewshot with
  | .ok p => .ok p
  | .error _ => base

/-- The framework-call part of `optimize_prompt` (lines 76-86): with a
nonempty examples list it goes through `_optimize_with_examples`, else
through `_optimize_without_examples` (oracle `base`). -/
def framework_call (examples : Option (List PyExample))
    (fewshot base : Except Unit Prediction) : Except Unit Prediction :=
  if (examples.getD []).length > 0 then optimize_with_examples fewshot base
  else base

/-- `PromptOptimizer._calculate_optimization_score` (lines 195-218). -/
def calculate_optimization_score (original optimized : String) : ℚ :=
  if optimized = "" || (pyStrip optimized).length = 0 then 0
  else
    let score1 : ℚ := if pyStrip optimized ≠ pyStrip original then 3/10 else 0
    let len_ratio : ℚ :=
      ((pySplitWs optimized).length : ℚ) / (max (pySplitWs original).length 1 : ℚ)
    let score2 : ℚ :=
      if 1 ≤ len_ratio ∧ len_ratio ≤ 5/2 then 3/10
      else if 4/5 ≤ len_ratio ∧ len_ratio < 1 then 2/10
      else 0
    let structure_count : ℚ :=
      ((["\n", ":", "-", "1.", "2.", "Step", "must", "should"].countP
        (fun m => pyContains optimized m)) : ℚ)
    min 1 (score1 + score2 + min (4/10) (structure_count * (5/100)))

/-- The bullet/number prefixes stripped by `_parse_improvements`
(line 231). -/
def improvement_prefixes : List String :=
  ["- ", "* ", "• ", "1. ", "2. ", "3. ", "4. ", "5. "]

/-- The default improvements list substituted by `_parse_improvements`
when no line survives (lines 239-244). -/
def default_improvements : List String :=
  ["Made the prompt more specific and actionable",
   "Added clarity to expected output format",
   "Improved instruction structure"]

/-- One iteration of the line loop in `_parse_improvements` (lines
226-236): strip, keep only nonempty non-whitespace lines, remove at most
one leading prefix (the first matching one), keep the result if still
nonempty. -/
def parse_improvement_line (line : String) : Option String :=
  let line := pyStrip line
  if line ≠ "" && !(pyIsSpaceStr line) then
    let line :=
      match improvement_prefixes.find? (fun p => pyStartsWith line p) with
      | some p => line.drop p.length
      | none => line
    if line ≠ "" then some line else none
  else none

/-- `PromptOptimizer._parse_improvements` (lines 220-246). -/
def parse_improvements (improvements_text : String) : List String :=
  let improvements := (pySplitOnChar '\n' improvements_text).filterMap parse_improvement_line
  let improvements := if improvements = [] then default_improvements else improvements
  improvements.take 5

/-- `PromptOptimizer._generate_explanation` (lines 248-270). -/
def generate_explanation (original optimized : String)
    (improvements : List String) : String :=
  "The prompt has been optimized to enhance clarity and effectiveness. " ++
  (if optimized.length > original.length then
    "Additional context and specificity were added to guide better responses. "
   else if optimized.length < original.length then
    "The prompt was streamlined for conciseness while maintaining clarity. "
   else "") ++
  (if improvements ≠ [] then
    "Key improvements include: " ++ String.intercalate ", " (improvements.take 3) ++ ". "
   else "") ++
  "These changes should result in more accurate and relevant outputs."

/-- `PromptOptimizer._basic_optimization` (lines 272-305): the
template-based fallback, independent of any LLM call. -/
def basic_optimization (original_prompt purpose : String) :
    String × List String × String :=
  ("Task: " ++ purpose ++ "\n\nInstructions:\n" ++ original_prompt ++
     "\n\nPlease provide a detailed response that:\n" ++
     "1. Directly addresses the stated purpose\n" ++
     "2. Is clear and well-structured\n" ++
     "3. Includes specific examples where relevant\n" ++
     "4. Follows best practices for the given task\n\nOutput:",
   ["Added clear task definition",
    "Structured the instructions for clarity",
    "Specified output requirements",
    "Included guidance for quality response"],
   "Applied template-based optimization to structure the prompt more effectively. " ++
     "The optimized version provides clearer context and expectations for better results.")

/-- `PromptOptimizer.optimize_prompt` (lines 49-106), with the instance
state threaded explicitly (the method performs no assignment to `self`, so
the returned state is the input state).  `_validate_optimization`
(lines 170-193) wraps its `dspy.Assert`/`dspy.Suggest` calls in a
`try/except: pass`, so it has no observable effect and is omitted.  On an
exception from the framework call the `except` branch (lines 103-106)
returns `_basic_optimization`. -/
def optimize_prompt (st : OptimizerState) (original_prompt purpose : String)
    (examples : Option (List PyExample))
    (fewshot base : Except Unit Prediction) :
    (String × List String × String) × OptimizerState :=
  match framework_call examples fewshot base with
  | .ok result =>
    let optimized_prompt := (result.optimized_prompt).getD original_prompt
    let improvements_text := (result.improvements).getD ""
    let improvements := parse_improvements improvements_text
    let explanation := generate_explanation original_prompt optimized_prompt improvements
    ((optimized_prompt, improvements, explanation), st)
  | .error _ => (basic_optimization original_prompt purpose, st)

/-- The nested `parse_assessment` helper of `analyze_prompt_quality`
(lines 326-338): keyword buckets checked in order on the lowercased
assessment text. -/
def parse_assessment (assessment : String) : ℚ :=
  let assessment_lower := pyToLower assessment
  if ["excellent", "high", "strong"].any (fun w => pyContains assessment_lower w) then 9/10
  else if ["good", "clear", "adequate"].any (fun w => pyContains assessment_lower w) then 7/10
  else if ["fair", "moderate", "acceptable"].any (fun w => pyContains assessment_lower w) then 5/10
  else if ["poor", "weak", "unclear"].any (fun w => pyContains assessment_lower w) then 3/10
  else 5/10

/-- `PromptOptimizer._heuristic_quality_analysis` (lines 362-390). -/
def heuristic_quality_analysis (prompt : String) : Metrics :=
  let sentences := pySplitOnChar '.' prompt
  let avg_sentence_length : ℚ :=
    ((sentences.map (fun s => ((pySplitWs s).length : ℤ))).sum : ℚ) /
      (max sentences.length 1 : ℚ)
  let specificity_count :=
    ["specific", "exactly", "must", "should", "format", "structure", "please", "provide"].countP
      (fun w => pyContains (pyToLower prompt) w)
  let structure_count :=
    ["\n", ":", "-", "1.", "2.", "•", "Step"].countP (fun i => pyContains prompt i)
  let word_count := (pySplitWs prompt).length
  { clarity_score := min 1 (1 - |avg_sentence_length - 15| / 30),
    specificity_score := min 1 ((specificity_count : ℚ) / 4),
    structure_score := min 1 ((structure_count : ℚ) / 4),
    completeness_score := min 1 ((word_count : ℚ) / 50) }

/-- The final rounding step of `analyze_prompt_quality` (line 358):
round every metric to 2 decimal places. -/
def round_metrics (m : Metrics) : Metrics :=
  { clarity_score := pyRound2 m.clarity_score,
    specificity_score := pyRound2 m.specificity_score,
    structure_score := pyRound2 m.structure_score,
    completeness_score := pyRound2 m.completeness_score }

/-- `PromptOptimizer.analyze_prompt_quality` (lines 307-360), state
threaded explicitly (the method performs no assignment to `self`).  The
`dspy.ChainOfThought` analysis call on `prompt[:500]` is the oracle
`lmAnalysis`: `.ok` carries the prediction's assessment attributes,
`.error` means the call raised, landing in the `except` branch (lines
353-355) which falls back to `_heuristic_quality_analysis`. -/
def analyze_prompt_quality (st : OptimizerState) (prompt : String)
    (lmAnalysis : Except Unit Assessments) : Metrics × OptimizerState :=
  let metrics :=
    match lmAnalysis with
    | .ok result =>
      { clarity_score := parse_assessment ((result.clarity_assessment).getD "moderate"),
        specificity_score := parse_assessment ((result.specificity_assessment).getD "moderate"),
        structure_score := parse_assessment ((result.structure_assessment).getD "moderate"),
        completeness_score := parse_assessment ((result.completeness_assessment).getD "moderate") }
    | .error _ => heuristic_quality_analysis prompt
  (round_metrics metrics, st)

/-- An HTTP error response produced via FastAPI `HTTPException`
(status code plus detail string). -/
structure HTTPError where
  status_code : Nat
  detail : String
deriving DecidableEq, Repr

/-- `PromptOptimizationRequest` (models.py lines 4-17). -/
structure PromptOptimizationRequest where
  original_prompt : String
  purpose : String
  examples : Option (List PyExample)
  temperature : ℚ
deriving DecidableEq, Repr

/-- `PromptOptimizationResponse` (models.py lines 19-28). -/
structure PromptOptimizationResponse where
  optimized_prompt : String
  improvements : List String
  explanation : String
  metrics : Option Metrics
  original_prompt : String
deriving DecidableEq, Repr

/-- The JSON body returned by the `/analyze` endpoint on success
(app.py lines 142-146). -/
structure AnalyzeResponse where
  prompt : String
  metrics : Metrics
  overall_score : ℚ
deriving DecidableEq, Repr

/-- The `/optimize` handler `optimize_prompt` (app.py lines 66-115).
`optimizer` is the module-global built at startup (`none` when
`PromptOptimizer()` raised).  In the embedding the handler body never
raises (every repository-side operation is total and the optimizer
methods catch their framework calls), so the 500 branch of lines 110-115
is unreachable and the success path always produces a response. -/
def optimize_endpoint (optimizer : Option OptimizerState)
    (request : PromptOptimizationRequest)
    (fewshot base : Except Unit Prediction)
    (lmAnalysis : Except Unit Assessments) :
    Except HTTPError PromptOptimizationResponse :=
  match optimizer with
  | none =>
    .error { status_code := 503,
             detail := "Optimizer not initialized. Please check API key configuration." }
  | some st =>
    let r := optimize_prompt st request.original_prompt request.purpose
      request.examples fewshot base
    let metrics := (analyze_prompt_quality r.2 r.1.1 lmAnalysis).1
    .ok { optimized_prompt := r.1.1,
          improvements := r.1.2.1,
          explanation := r.1.2.2,
          metrics := some metrics,
          original_prompt := request.original_prompt }

/-- The `/analyze` handler `analyze_prompt` (app.py lines 117-153).
`request` is the JSON dict body, modelled as an association list of
string fields.  `request.get("prompt", "")` followed by
`if not prompt: raise ValueError("No prompt provided")` lands in the
handler's own `except` branch, which re-raises as an HTTP 500 with detail
`f"Error analyzing prompt: {str(e)}"`. -/
def analyze_endpoint (optimizer : Option OptimizerState)
    (request : List (String × String))
    (lmAnalysis : Except Unit Assessments) :
    Except HTTPError AnalyzeResponse :=
  match optimizer with
  | none => .error { status_code := 503, detail := "Optimizer not initialized" }
  | some st =>
    let prompt := (getenv request "prompt").getD ""
    if prompt = "" then
      .error { status_code := 500, detail := "Error analyzing prompt: No prompt provided" }
    else
      let metrics := (analyze_prompt_quality st prompt lmAnalysis).1
      .ok { prompt := prompt,
            metrics := metrics,
            overall_score := pyRound2 ((metrics.clarity_score + metrics.specificity_score +
              metrics.structure_score + metrics.completeness_score) / 4) }

/-! ## Helper lemmas -/

theorem pyRound2_nonneg {q : ℚ} (h : 0 ≤ q) : 0 ≤ pyRound2 q := by
  have hr : (0 : ℚ) ≤ q * 100 := by linarith
  have hf : (0 : ℤ) ≤ ⌊q * 100⌋ := Int.floor_nonneg.mpr hr
  have hf' : (0 : ℚ) ≤ (⌊q * 100⌋ : ℚ) := by exact_mod_cast hf
  simp only [pyRound2]
  split_ifs <;> positivity

theorem pyRound2_le_one {q : ℚ} (h : q ≤ 1) : pyRound2 q ≤ 1 := by
  have hr : q * 100 ≤ 100 := by linarith
  have hfl : (⌊q * 100⌋ : ℚ) ≤ q * 100 := Int.floor_le _
  have h100 : (⌊q * 100⌋ : ℚ) ≤ 100 := le_trans hfl hr
  simp only [pyRound2]
  split_ifs with h1 h2 h3
  · linarith
  · have hlt : (⌊q * 100⌋ : ℚ) < 100 := by linarith
    have hz : ⌊q * 100⌋ < 100 := by exact_mod_cast hlt
    have : ((⌊q * 100⌋ : ℚ) + 1) ≤ 100 := by
      have : ⌊q * 100⌋ + 1 ≤ 100 := hz
      exact_mod_cast this
    linarith
  · linarith
  · have hd : q * 100 - (⌊q * 100⌋ : ℚ) = 1/2 := le_antisymm (not_lt.mp h2) (not_lt.mp h1)
    have hlt : (⌊q * 100⌋ : ℚ) < 100 := by linarith
    have hz : ⌊q * 100⌋ < 100 := by exact_mod_cast hlt
    have : ((⌊q * 100⌋ : ℚ) + 1) ≤ 100 := by
      have : ⌊q * 100⌋ + 1 ≤ 100 := hz
      exact_mod_cast this
    linarith

theorem parse_assessment_nonneg (s : String) : 0 ≤ parse_assessment s := by
  simp only [parse_assessment]
  split_ifs <;> norm_num

theorem parse_assessment_le_one (s : String) : parse_assessment s ≤ 1 := by
  simp only [parse_assessment]
  split_ifs <;> norm_num

theorem parse_improvement_line_ne_empty {a x : String}
    (h : parse_improvement_line a = some x) : x ≠ "" := by
  simp only [parse_improvement_line] at h
  split_ifs at h with h1 h2
  exact (Option.some_injective _ h) ▸ h2

/-! ## Claim theorems -/

/-- C1: if the framework optimization call inside
`PromptOptimizer.optimize_prompt` raises, the method returns the
`_basic_optimization` fallback: an optimized prompt that begins with
`"Task: " ++ purpose` and contains the original prompt verbatim, a fixed
list of exactly 4 improvement strings, and a fixed explanation string. -/
theorem optimize_prompt_fallback_on_error (st : OptimizerState)
    (original_prompt purpose : String) (examples : Option (List PyExample))
    (fewshot base : Except Unit Prediction)
    (h : framework_call examples fewshot base = Except.error ()) :
    (optimize_prompt st original_prompt purpose examples fewshot base).1 =
      basic_optimization original_prompt purpose ∧
    (∃ rest, (optimize_prompt st original_prompt purpose examples fewshot base).1.1 =
      "Task: " ++ purpose ++ rest) ∧
    (∃ pre post, (optimize_prompt st original_prompt purpose examples fewshot base).1.1 =
      pre ++ original_prompt ++ post) ∧
    (optimize_prompt st original_prompt purpose examples fewshot base).1.2.1 =
      ["Added clear task definition",
       "Structured the instructions for clarity",
       "Specified output requirements",
       "Included guidance for quality response"] ∧
    (optimize_prompt st original_prompt purpose examples fewshot base).1.2.2 =
      "Applied template-based optimization to structure the prompt more effectively. " ++
        "The optimized version provides clearer context and expectations for better results." := by
  have e : optimize_prompt st original_prompt purpose examples fewshot base =
      (basic_optimization original_prompt purpose, st) := by
    simp only [optimize_prompt, h]
  rw [e]
  refine ⟨rfl, ⟨"\n\nInstructions:\n" ++ original_prompt ++
      "\n\nPlease provide a detailed response that:\n" ++
      "1. Directly addresses the stated purpose\n" ++
      "2. Is clear and well-structured\n" ++
      "3. Includes specific examples where relevant\n" ++
      "4. Follows best practices for the given task\n\nOutput:", ?_⟩,
    ⟨"Task: " ++ purpose ++ "\n\nInstructions:\n",
     "\n\nPlease provide a detailed response that:\n" ++
      "1. Directly addresses the stated purpose\n" ++
      "2. Is clear and well-structured\n" ++
      "3. Includes specific examples where relevant\n" ++
      "4. Follows best practices for the given task\n\nOutput:", ?_⟩, rfl, rfl⟩ <;>
  simp [basic_optimization, String.append_assoc]

/-- Witness for C1 at a concrete input: the framework call fails and the
fallback tuple is produced. -/
theorem optimize_prompt_fallback_on_error_witness :
    framework_call (none : Option (List PyExample))
        (Except.error ()) (Except.error ()) = Except.error () ∧
    ((optimize_prompt ⟨⟨"openai/gpt-4", "k", 7/10⟩, (), none⟩
        "Summarize the following text." "text summarization" none
        (Except.error ()) (Except.error ())).1 =
      basic_optimization "Summarize the following text." "text summarization" ∧
    (∃ rest, (optimize_prompt ⟨⟨"openai/gpt-4", "k", 7/10⟩, (), none⟩
        "Summarize the following text." "text summarization" none
        (Except.error ()) (Except.error ())).1.1 =
      "Task: " ++ "text summarization" ++ rest) ∧
    (∃ pre post, (optimize_prompt ⟨⟨"openai/gpt-4", "k", 7/10⟩, (), none⟩
        "Summarize the following text." "text summarization" none
        (Except.error ()) (Except.error ())).1.1 =
      pre ++ "Summarize the following text." ++ post) ∧
    (optimize_prompt ⟨⟨"openai/gpt-4", "k", 7/10⟩, (), none⟩
        "Summarize the following text." "text summarization" none
        (Except.error ()) (Except.error ())).1.2.1 =
      ["Added clear task definition",
       "Structured the instructions for clarity",
       "Specified output requirements",
       "Included guidance for quality response"] ∧
    (optimize_prompt ⟨⟨"openai/gpt-4", "k", 7/10⟩, (), none⟩
        "Summarize the following text." "text summarization" none
        (Except.error ()) (Except.error ())).1.2.2 =
      "Applied template-based optimization to structure the prompt more effectively. " ++
        "The optimized version provides clearer context and expectations for better results.") :=
  ⟨rfl, optimize_prompt_fallback_on_error _ _ _ _ _ _ rfl⟩

/-- C2: with the optimizer initialized, for every request and every outcome
of the external calls the `/optimize` handler returns a success response
whose fields are the optimized prompt, the improvements list, the
explanation, the quality metrics of the optimized prompt, and an
`original_prompt` equal character-for-character to the request's
`original_prompt`. -/
theorem optimize_endpoint_success (st : OptimizerState)
    (request : PromptOptimizationRequest)
    (fewshot base : Except Unit Prediction) (lmAnalysis : Except Unit Assessments) :
    optimize_endpoint (some st) request fewshot base lmAnalysis =
      Except.ok
        { optimized_prompt := (optimize_prompt st request.original_prompt
            request.purpose request.examples fewshot base).1.1,
          improvements := (optimize_prompt st request.original_prompt
            request.purpose request.examples fewshot base).1.2.1,
          explanation := (optimize_prompt st request.original_prompt
            request.purpose request.examples fewshot base).1.2.2,
          metrics := some (analyze_prompt_quality st
            ((optimize_prompt st request.original_prompt request.purpose
              request.examples fewshot base).1.1) lmAnalysis).1,
          original_prompt := request.original_prompt } := by
  have hst : (optimize_prompt st request.original_prompt request.purpose
      request.examples fewshot base).2 = st := by
    simp only [optimize_prompt]
    cases framework_call request.examples fewshot base <;> rfl
  simp only [optimize_endpoint, hst]

/-- C3: on the heuristic fallback path (LM-based analysis raising),
`analyze_prompt_quality` returns exactly the four keys `clarity_score`,
`specificity_score`, `structure_score` and `completeness_score` with
clarity `min 1 (1 - |avg_sentence_word_length - 15| / 30)` over the
`'.'`-split sentences, specificity `min 1 (k/4)` over the 8 keywords,
structure `min 1 (m/4)` over the 7 indicators, completeness
`min 1 (word_count/50)`, each rounded to 2 decimal places. -/
theorem heuristic_quality_formula (st : OptimizerState) (prompt : String) :
    (analyze_prompt_quality st prompt (Except.error ())).1 =
      { clarity_score := pyRound2 (min 1 (1 -
          |(((pySplitOnChar '.' prompt).map (fun s => ((pySplitWs s).length : ℤ))).sum : ℚ) /
              (max (pySplitOnChar '.' prompt).length 1 : ℚ) - 15| / 30)),
        specificity_score := pyRound2 (min 1
          (((["specific", "exactly", "must", "should", "format", "structure",
              "please", "provide"].countP
              (fun w => pyContains (pyToLower prompt) w)) : ℚ) / 4)),
        structure_score := pyRound2 (min 1
          (((["\n", ":", "-", "1.", "2.", "•", "Step"].countP
              (fun i => pyContains prompt i)) : ℚ) / 4)),
        completeness_score := pyRound2 (min 1 (((pySplitWs prompt).length : ℚ) / 50)) } :=
  rfl

/-- C4: for every model-output string, `_parse_improvements` yields a
non-empty list of between 1 and 5 entries, each a non-empty string
(default 3-entry list substituted when no line survives, result truncated
to 5). -/
theorem parse_improvements_shape (s : String) :
    parse_improvements s ≠ [] ∧
    1 ≤ (parse_improvements s).length ∧
    (parse_improvements s).length ≤ 5 ∧
    ∀ x ∈ parse_improvements s, x ≠ "" := by
  simp only [parse_improvements]
  by_cases h : (pySplitOnChar '\n' s).filterMap parse_improvement_line = []
  · rw [h]
    refine ⟨by decide, by decide, by decide, ?_⟩
    intro x hx
    simp only [if_pos rfl] at hx
    fin_cases hx <;> decide
  · rw [if_neg h]
    have hlen : 0 < ((pySplitOnChar '\n' s).filterMap parse_improvement_line).length :=
      List.length_pos.mpr h
    refine ⟨?_, ?_, ?_, ?_⟩
    · intro hnil
      have := congrArg List.length hnil
      simp only [List.length_take, List.length_nil] at this
      omega
    · have : ((((pySplitOnChar '\n' s).filterMap parse_improvement_line).take 5).length) =
        min 5 ((pySplitOnChar '\n' s).filterMap parse_improvement_line).length :=
        List.length_take 5 _
      omega
    · have : ((((pySplitOnChar '\n' s).filterMap parse_improvement_line).take 5).length) =
        min 5 ((pySplitOnChar '\n' s).filterMap parse_improvement_line).length :=
        List.length_take 5 _
      omega
    · intro x hx
      have hx' : x ∈ (pySplitOnChar '\n' s).filterMap parse_improvement_line :=
        List.take_subset 5 _ hx
      obtain ⟨a, _, ha⟩ := List.mem_filterMap.mp hx'
      exact parse_improvement_line_ne_empty ha

/-- C5: when the LM-based analysis raises, `analyze_prompt_quality`
catches the exception and returns the heuristic-based scores (rounded);
the method always returns normally. -/
theorem analyze_prompt_quality_fallback (st : OptimizerState) (prompt : String) :
    analyze_prompt_quality st prompt (Except.error ()) =
      (round_metrics (heuristic_quality_analysis prompt), st) :=
  rfl

/-- C6: neither `optimize_prompt` nor `analyze_prompt_quality` modifies
any field of the `PromptOptimizer` instance: the state returned is the
state passed in, for every input and every external-call outcome. -/
theorem optimizer_methods_stateless (st : OptimizerState)
    (original_prompt purpose : String) (examples : Option (List PyExample))
    (fewshot base : Except Unit Prediction) (prompt : String)
    (lmAnalysis : Except Unit Assessments) :
    (optimize_prompt st original_prompt purpose examples fewshot base).2 = st ∧
    (analyze_prompt_quality st prompt lmAnalysis).2 = st := by
  constructor
  · simp only [optimize_prompt]
    cases framework_call examples fewshot base <;> rfl
  · simp only [analyze_prompt_quality]

theorem pyStrip_eq_empty {s : String} (h : s.data.all pyIsSpace = true) :
    pyStrip s = "" := by
  have h' : ∀ c ∈ s.data, pyIsSpace c := by simpa [List.all_eq_true] using h
  simp only [pyStrip]
  rw [List.dropWhile_eq_nil_iff.mpr h']
  rfl

/-- C8: `_calculate_optimization_score` always returns a value in
`[0, 1]`, and returns exactly `0` whenever the optimized string is empty
or consists only of whitespace. -/
theorem calculate_optimization_score_range (original optimized : String) :
    (0 ≤ calculate_optimization_score original optimized ∧
      calculate_optimization_score original optimized ≤ 1) ∧
    ((optimized = "" ∨ optimized.data.all pyIsSpace = true) →
      calculate_optimization_score original optimized = 0) := by
  constructor
  · simp only [calculate_optimization_score]
    split_ifs <;>
      first
      | exact ⟨le_rfl, zero_le_one⟩
      | exact ⟨by positivity, min_le_left _ _⟩
  · intro h
    have hs : pyStrip optimized = "" := by
      rcases h with h | h
      · subst h; rfl
      · exact pyStrip_eq_empty h
    simp [calculate_optimization_score, hs]

/-- Witness for C8: a whitespace-only optimized string scores exactly 0. -/
theorem calculate_optimization_score_range_witness :
    ((" \t " : String) = "" ∨ (" \t " : String).data.all pyIsSpace = true) ∧
    calculate_optimization_score "Write a poem" " \t " = 0 :=
  ⟨Or.inr (by decide),
   (calculate_optimization_score_range "Write a poem" " \t ").2 (Or.inr (by decide))⟩

theorem pyRound2_le (q : ℚ) : pyRound2 q ≤ q + 1/200 := by
  have hfl : (⌊q * 100⌋ : ℚ) ≤ q * 100 := Int.floor_le _
  simp only [pyRound2]
  split_ifs with h1 h2 h3
  · linarith
  · linarith
  · linarith
  · have hd : q * 100 - (⌊q * 100⌋ : ℚ) = 1/2 := le_antisymm (not_lt.mp h2) (not_lt.mp h1)
    linarith

theorem heuristic_quality_bounds (prompt : String) :
    (heuristic_quality_analysis prompt).clarity_score ≤ 1 ∧
    0 ≤ (heuristic_quality_analysis prompt).specificity_score ∧
    (heuristic_quality_analysis prompt).specificity_score ≤ 1 ∧
    0 ≤ (heuristic_quality_analysis prompt).structure_score ∧
    (heuristic_quality_analysis prompt).structure_score ≤ 1 ∧
    0 ≤ (heuristic_quality_analysis prompt).completeness_score ∧
    (heuristic_quality_analysis prompt).completeness_score ≤ 1 := by
  simp only [heuristic_quality_analysis]
  refine ⟨min_le_left _ _, ?_, min_le_left _ _, ?_, min_le_left _ _, ?_, min_le_left _ _⟩ <;>
    positivity

theorem clarity_unbounded_below (st : OptimizerState) {p : String}
    (h1 : pySplitOnChar '.' p = [p]) (h2 : 46 ≤ (pySplitWs p).length) :
    (analyze_prompt_quality st p (Except.error ())).1.clarity_score < 0 := by
  have hk : (46 : ℚ) ≤ ((pySplitWs p).length : ℚ) := by exact_mod_cast h2
  simp only [analyze_prompt_quality, round_metrics, heuristic_quality_analysis, h1,
    List.map_cons, List.map_nil, List.sum_cons, List.sum_nil, add_zero,
    List.length_cons, List.length_nil]
  refine lt_of_le_of_lt (pyRound2_le _) ?_
  have hcast : ((((pySplitWs p).length : ℤ) : ℚ)) = ((pySplitWs p).length : ℚ) := by
    push_cast
    rfl
  rw [hcast]
  norm_num
  rw [abs_of_nonneg (by linarith : (0 : ℚ) ≤ ((pySplitWs p).length : ℚ) - 15)]
  rw [min_eq_right
    (by linarith : (1 - (((pySplitWs p).length : ℚ) - 15) / 30) ≤ 1)]
  linarith

/-- C9: every metric returned by `analyze_prompt_quality` is at most 1,
and `specificity_score`, `structure_score` and `completeness_score` are
additionally at least 0; `clarity_score` has no such lower bound on the
heuristic path (witnessed by a 46-word single-sentence prompt whose
clarity score is negative). -/
theorem analyze_quality_metric_bounds (st : OptimizerState) (prompt : String)
    (lmAnalysis : Except Unit Assessments) :
    ((analyze_prompt_quality st prompt lmAnalysis).1.clarity_score ≤ 1 ∧
     (analyze_prompt_quality st prompt lmAnalysis).1.specificity_score ≤ 1 ∧
     (analyze_prompt_quality st prompt lmAnalysis).1.structure_score ≤ 1 ∧
     (analyze_prompt_quality st prompt lmAnalysis).1.completeness_score ≤ 1 ∧
     0 ≤ (analyze_prompt_quality st prompt lmAnalysis).1.specificity_score ∧
     0 ≤ (analyze_prompt_quality st prompt lmAnalysis).1.structure_score ∧
     0 ≤ (analyze_prompt_quality st prompt lmAnalysis).1.completeness_score) ∧
    (analyze_prompt_quality ⟨⟨"openai/gpt-4", "k", 7/10⟩, (), none⟩
        "a a a a a a a a a a a a a a a a a a a a a a a a a a a a a a a a a a a a a a a a a a a a a a"
        (Except.error ())).1.clarity_score < 0 := by
  constructor
  · cases lmAnalysis with
    | ok result =>
      simp only [analyze_prompt_quality, round_metrics]
      exact ⟨pyRound2_le_one (parse_assessment_le_one _),
        pyRound2_le_one (parse_assessment_le_one _),
        pyRound2_le_one (parse_assessment_le_one _),
        pyRound2_le_one (parse_assessment_le_one _),
        pyRound2_nonneg (parse_assessment_nonneg _),
        pyRound2_nonneg (parse_assessment_nonneg _),
        pyRound2_nonneg (parse_assessment_nonneg _)⟩
    | error u =>
      simp only [analyze_prompt_quality, round_metrics]
      obtain ⟨c1, s0, s1, t0, t1, m0, m1⟩ := heuristic_quality_bounds prompt
      exact ⟨pyRound2_le_one c1, pyRound2_le_one s1, pyRound2_le_one t1,
        pyRound2_le_one m1, pyRound2_nonneg s0, pyRound2_nonneg t0,
        pyRound2_nonneg m0⟩
  · exact clarity_unbounded_below _ (by decide) (by decide)

/-- C10: with the optimizer initialized, a request to `/analyze` whose
body lacks a `prompt` field or carries an empty one is answered with HTTP
status 500 (not a 4xx status) and a detail containing
`No prompt provided`. -/
theorem analyze_endpoint_missing_prompt (st : OptimizerState)
    (req : List (String × String)) (lmAnalysis : Except Unit Assessments)
    (h : getenv req "prompt" = none ∨ getenv req "prompt" = some "") :
    analyze_endpoint (some st) req lmAnalysis =
      Except.error { status_code := 500,
                     detail := "Error analyzing prompt: No prompt provided" } ∧
    pyContains "Error analyzing prompt: No prompt provided" "No prompt provided" = true := by
  refine ⟨?_, by decide⟩
  rcases h with h | h <;> simp [analyze_endpoint, h]

/-- Witness for C10: the empty JSON body is rejected with status 500 and
the `No prompt provided` detail. -/
theorem analyze_endpoint_missing_prompt_witness :
    (getenv [] "prompt" = none ∨ getenv [] "prompt" = some "") ∧
    (analyze_endpoint (some ⟨⟨"openai/gpt-4", "k", 7/10⟩, (), none⟩) []
        (Except.error ()) =
      Except.error { status_code := 500,
                     detail := "Error analyzing prompt: No prompt provided" } ∧
     pyContains "Error analyzing prompt: No prompt provided" "No prompt provided" = true) :=
  ⟨Or.inl rfl, analyze_endpoint_missing_prompt _ _ _ (Or.inl rfl)⟩

/-- Counterexample to C7 as stated: with `OPENAI_API_KEY` present in the
environment but bound to the empty string, the variable is set (not
unset), yet the constructor still raises, because `if not api_key` treats
the empty string as falsy.  So the constructor does not raise exactly
when the variable is unset. -/
theorem init_raises_on_empty_key :
    promptOptimizer_init [("OPENAI_API_KEY", "")] (fun _ => some (7/10)) =
      Except.error "OPENAI_API_KEY not found in environment variables" ∧
    getenv [("OPENAI_API_KEY", "")] "OPENAI_API_KEY" = some "" :=
  ⟨rfl, rfl⟩

/-- C7 (amended): provided the configured temperature string parses as a
float, the constructor raises exactly when `OPENAI_API_KEY` is unset or
set to the empty string; and while the optimizer is uninitialized, every
request to `/optimize` and `/analyze` is rejected with HTTP status 503. -/
theorem init_error_iff_key_missing_or_empty (env : List (String × String))
    (pfloat : String → Option ℚ)
    (request : PromptOptimizationRequest) (reqd : List (String × String))
    (fewshot base : Except Unit Prediction) (lmAnalysis : Except Unit Assessments)
    (hp : pfloat ((getenv env "DSPY_TEMPERATURE").getD "0.7") ≠ none) :
    ((promptOptimizer_init env pfloat).toOption = none ↔
      (getenv env "OPENAI_API_KEY" = none ∨ getenv env "OPENAI_API_KEY" = some "")) ∧
    optimize_endpoint none request fewshot base lmAnalysis =
      Except.error { status_code := 503,
                     detail := "Optimizer not initialized. Please check API key configuration." } ∧
    analyze_endpoint none reqd lmAnalysis =
      Except.error { status_code := 503, detail := "Optimizer not initialized" } := by
  refine ⟨?_, rfl, rfl⟩
  obtain ⟨t, ht⟩ := Option.ne_none_iff_exists'.mp hp
  rcases hk : getenv env "OPENAI_API_KEY" with _ | s
  · simp [promptOptimizer_init, hk, Except.toOption]
  · by_cases hs : s = ""
    · subst hs
      simp [promptOptimizer_init, hk, Except.toOption]
    · simp [promptOptimizer_init, hk, hs, ht, Except.toOption]

/-- Witness for C7 (amended) at a concrete environment with a nonempty
key: the constructor succeeds, and the uninitialized endpoints reject
with 503. -/
theorem init_error_iff_key_missing_or_empty_witness :
    ((fun s => if s = "0.7" then some ((7 : ℚ)/10) else none)
        ((getenv [("OPENAI_API_KEY", "sk-test")] "DSPY_TEMPERATURE").getD "0.7") ≠ none) ∧
    (((promptOptimizer_init [("OPENAI_API_KEY", "sk-test")]
        (fun s => if s = "0.7" then some ((7 : ℚ)/10) else none)).toOption = none ↔
      (getenv [("OPENAI_API_KEY", "sk-test")] "OPENAI_API_KEY" = none ∨
       getenv [("OPENAI_API_KEY", "sk-test")] "OPENAI_API_KEY" = some "")) ∧
    optimize_endpoint none ⟨"p", "q", none, 7/10⟩ (Except.error ()) (Except.error ())
        (Except.error ()) =
      Except.error { status_code := 503,
                     detail := "Optimizer not initialized. Please check API key configuration." } ∧
    analyze_endpoint none [] (Except.error ()) =
      Except.error { status_code := 503, detail := "Optimizer not initialized" }) :=
  ⟨by decide, init_error_iff_key_missing_or_empty _ _ _ _ _ _ _ (by decide)⟩

end DSPyUI
